import Mathlib

/-!
Shallow embedding of `terasim_cosmos/street_view_analysis.py`
(class `StreetViewRetrievalAndAnalysis`).

Timestamps and coordinates are Python floats in the source; they are
modelled here as rationals (`ℚ`).  File contents and parse outcomes are
modelled as explicit inductive data; external HTTP/LLM calls are modelled
as function parameters returning `Except`.
-/

namespace StreetView

/-- A `<vehicle id=... x=... y=... angle=...>` record of an FCD timestep. -/
structure VehicleRecord where
  id : String
  x : ℚ
  y : ℚ
  angle : ℚ
deriving DecidableEq, Repr

/-- A `<timestep time=...>` element of an FCD file, with its vehicle records
in document order. -/
structure Timestep where
  time : ℚ
  vehicles : List VehicleRecord
deriving DecidableEq, Repr

/-- The parsed FCD trajectory log: the list of `timestep` elements in
document order (`root.findall("timestep")`). -/
abbrev TrajectoryLog := List Timestep

/-- The sort key comparison used by
`all_timesteps.sort(key=lambda x: float(x.get("time")))`:
ascending (stable) sort by timestamp. -/
def timeLE (a b : Timestep) : Bool := decide (a.time ≤ b.time)

/-- Model of `all_timesteps.sort(...)`: stable ascending sort by timestamp. -/
def sortTimesteps (log : TrajectoryLog) : List Timestep :=
  log.mergeSort timeLE

/-- One iteration of the closest-timestep scan: starting from
`min_diff = float('inf')` (modelled by `none`), replace the tracked best
exactly when `time_diff < min_diff` (strict less-than). -/
def stepClosest (target : ℚ) (acc : Option (Timestep × ℚ)) (ts : Timestep) :
    Option (Timestep × ℚ) :=
  match acc with
  | none => some (ts, |ts.time - target|)
  | some (best, minDiff) =>
      if |ts.time - target| < minDiff then some (ts, |ts.time - target|)
      else some (best, minDiff)

/-- The first loop of `get_vehicle_position_at_time`: sort the timesteps by
time and scan them, keeping the first timestep whose timestamp distance to
`target_time` is strictly smaller than the running minimum. -/
def selectTimestep (log : TrajectoryLog) (target : ℚ) : Option Timestep :=
  ((sortTimesteps log).foldl (stepClosest target) none).map Prod.fst

/-- Model of `get_vehicle_position_at_time`: find the closest timestep to
`target_time`, then return `(x, y, angle)` of the first vehicle record in it
whose id equals `vehicle_id`, or `none` when there is no timestep or no
matching record. -/
def get_vehicle_position_at_time (log : TrajectoryLog) (vehicle_id : String)
    (target : ℚ) : Option (ℚ × ℚ × ℚ) :=
  match selectTimestep log target with
  | none => none
  | some ts =>
      match ts.vehicles.find? (fun v => v.id == vehicle_id) with
      | none => none
      | some v => some (v.x, v.y, v.angle)

/-! ### Context extraction (`_load_environment_context`) -/

/-- Python truthiness of an optional string (`if weather:` etc.):
`None` and the empty string are falsy. -/
def truthy (o : Option String) : Bool :=
  match o with
  | none => false
  | some s => !s.isEmpty

/-- The relevant fields of a parsed `report.yaml`: the
`accident_weather` sub-fields and the `accident_time` string.  A field
absent from the document is `none`. -/
structure ReportData where
  weather : Option String
  light : Option String
  road_surface : Option String
  accident_time : Option String
deriving DecidableEq, Repr

/-- The three outcome shapes of reading `report.yaml` next to the FCD
file: the file does not exist, it exists but is not valid YAML
(`OSError`/`yaml.YAMLError`), or it parses into report data. -/
inductive ReportFile where
  | missing
  | unparsable
  | parsed (data : ReportData)
deriving DecidableEq, Repr

/-- Numeric value of an ASCII digit character. -/
def digitVal (c : Char) : Nat := c.toNat - 48

/-- Models the external call
`datetime.strptime(accident_time_str, "%m/%d/%Y %H:%M")` on the
`MM/DD/YYYY HH:MM` shape the spec names: sixteen characters, two-digit
month/day/hour/minute and a four-digit year, with in-range field values;
any other string fails (in Python: raises `ValueError`, modelled as
`none`).  Returns `(month, day, year, hour, minute)`. -/
def parseAccidentTime (s : String) : Option (Nat × Nat × Nat × Nat × Nat) :=
  match s.data with
  | [m1, m2, '/', d1, d2, '/', y1, y2, y3, y4, ' ', h1, h2, ':', n1, n2] =>
      if [m1, m2, d1, d2, y1, y2, y3, y4, h1, h2, n1, n2].all Char.isDigit then
        let month := 10 * digitVal m1 + digitVal m2
        let day := 10 * digitVal d1 + digitVal d2
        let year := 1000 * digitVal y1 + 100 * digitVal y2 + 10 * digitVal y3 + digitVal y4
        let hour := 10 * digitVal h1 + digitVal h2
        let minute := 10 * digitVal n1 + digitVal n2
        if 1 ≤ month ∧ month ≤ 12 ∧ 1 ≤ day ∧ day ≤ 31 ∧ hour ≤ 23 ∧ minute ≤ 59 then
          some (month, day, year, hour, minute)
        else none
      else none
  | _ => none

/-- The hour-to-label bucket chain of `_load_environment_context`:
`if 5 <= hour < 11: "morning" elif 11 <= hour < 13: "noon"
elif 13 <= hour < 17: "afternoon" elif 17 <= hour < 19: "evening"
else: "night"`. -/
def hourDescriptor (hour : Nat) : String :=
  if 5 ≤ hour ∧ hour < 11 then "morning"
  else if 11 ≤ hour ∧ hour < 13 then "noon"
  else if 13 ≤ hour ∧ hour < 17 then "afternoon"
  else if 17 ≤ hour ∧ hour < 19 then "evening"
  else "night"

/-- The `time_descriptor` computed by `_load_environment_context`:
`None` unless `accident_time` is a truthy string that parses in the
`%m/%d/%Y %H:%M` format, in which case the hour is bucketed by
`hourDescriptor`. -/
def timeDescriptorOf (data : ReportData) : Option String :=
  if truthy data.accident_time then
    match parseAccidentTime (data.accident_time.getD "") with
    | some (_, _, _, hour, _) => some (hourDescriptor hour)
    | none => none
  else none

/-- The first three `components.append(...)` steps of
`_load_environment_context`: one `"weather: ..."`, `"lighting: ..."`,
`"road surface: ..."` entry per truthy field, in that order. -/
def baseComponents (data : ReportData) : List String :=
  let components : List String := []
  let components :=
    if truthy data.weather then components ++ ["weather: " ++ data.weather.getD ""]
    else components
  let components :=
    if truthy data.light then components ++ ["lighting: " ++ data.light.getD ""]
    else components
  if truthy data.road_surface then components ++ ["road surface: " ++ data.road_surface.getD ""]
  else components

/-- All four `components.append(...)` steps of
`_load_environment_context`: the base components followed by
`"time of day: ..."` when the time descriptor is truthy. -/
def contextComponents (data : ReportData) : List String :=
  if truthy (timeDescriptorOf data) then
    baseComponents data ++ ["time of day: " ++ (timeDescriptorOf data).getD ""]
  else baseComponents data

/-- The summary components as the spec words them: for each present
(truthy) field, in the fixed order weather, lighting, road surface,
time of day, one labelled entry; absent fields are omitted. -/
def specComponents (w l r td : Option String) : List String :=
  (if truthy w then ["weather: " ++ w.getD ""] else []) ++
  (if truthy l then ["lighting: " ++ l.getD ""] else []) ++
  (if truthy r then ["road surface: " ++ r.getD ""] else []) ++
  (if truthy td then ["time of day: " ++ td.getD ""] else [])

/-- Model of `_load_environment_context`: a missing or unparsable `report.yaml`
yields `("", None)`; otherwise the comma-joined component summary is
returned together with the time descriptor. -/
def _load_environment_context (file : ReportFile) : String × Option String :=
  match file with
  | .missing => ("", none)
  | .unparsable => ("", none)
  | .parsed data => (String.intercalate ", " (contextComponents data), timeDescriptorOf data)

/-! ### Construction (`StreetViewRetrievalAndAnalysis.__init__`) -/

/-- The environment variables read by `__init__` via `os.getenv`:
`none` models an unset variable. -/
structure Env where
  google_maps_api_key : Option String
  gemini_model_name : Option String
  openrouter_api_key : Option String
  gemini_api_key : Option String
deriving DecidableEq, Repr

/-- The fields of a successfully constructed
`StreetViewRetrievalAndAnalysis` object.  `gemini_client = some m`
models `genai_module.GenerativeModel(m)` having been constructed;
`none` models the client left uninitialized. -/
structure AnalysisClient where
  google_maps_api_key : String
  gemini_model_name : String
  openrouter_model_name : Option String
  use_openrouter : Bool
  gemini_client : Option String
  openrouter_api_key : Option String
deriving DecidableEq, Repr

/-- Model of `StreetViewRetrievalAndAnalysis.__init__(google_model, openrouter_model)`:
the Google Maps key is required first; then exactly one backend is
validated and initialized, chosen by the truthiness of
`openrouter_model`.  A raised `ValueError` is modelled as
`Except.error` carrying the exception message. -/
def init (env : Env) (google_model : Option String) (openrouter_model : Option String) :
    Except String AnalysisClient :=
  let google_maps_api_key := env.google_maps_api_key
  let gemini_model_name :=
    if truthy google_model then google_model.getD ""
    else env.gemini_model_name.getD "gemini-2.5-pro"
  let openrouter_model_name := openrouter_model
  if !truthy google_maps_api_key then Except.error "Google Maps API key is required"
  else
    let use_openrouter := truthy openrouter_model_name
    if use_openrouter then
      if !truthy env.openrouter_api_key then
        Except.error "OpenRouter API key is required when openrouter_model is specified"
      else
        Except.ok
          { google_maps_api_key := google_maps_api_key.getD ""
            gemini_model_name := gemini_model_name
            openrouter_model_name := openrouter_model_name
            use_openrouter := use_openrouter
            gemini_client := none
            openrouter_api_key := env.openrouter_api_key }
    else
      if !truthy env.gemini_api_key then
        Except.error "Google Gemini API key is required"
      else
        Except.ok
          { google_maps_api_key := google_maps_api_key.getD ""
            gemini_model_name := gemini_model_name
            openrouter_model_name := openrouter_model_name
            use_openrouter := use_openrouter
            gemini_client := some gemini_model_name
            openrouter_api_key := none }

/-! ### Orchestrator (`get_streetview_image_and_description`) -/

/-- The two external fallible calls made per camera viewpoint:
`get_street_view_image(lat, lon, heading, fov)` returning raw image
bytes, and `analyze_image_with_llm(image, environment_description,
time_descriptor)` returning the caption.  `Except.error` models a
raised exception. -/
structure Services where
  getStreetViewImage : ℚ → ℚ → ℚ → Nat → Except String String
  analyzeImage : String → String → Option String → Except String String

/-- Model of `camera_angle_list`: the six camera names with their relative
heading offsets, in dict insertion order. -/
def camera_angle_list : List (String × ℚ) :=
  [("front", 0), ("front_left", -66), ("front_right", 66),
   ("rear", 180), ("rear_left", -152), ("rear_right", 152)]

/-- Model of `fov_list`: field of view per camera name. -/
def fov_list (camera_name : String) : Nat :=
  if camera_name = "front" then 120
  else if camera_name = "front_left" then 120
  else if camera_name = "front_right" then 120
  else if camera_name = "rear" then 30
  else if camera_name = "rear_left" then 70
  else if camera_name = "rear_right" then 70
  else 0

/-- Model of `default_prompt_list`: the fixed descriptive text prepended per
camera. -/
def default_prompt_list (camera_name : String) : String :=
  if camera_name = "front" then
    "The video is captured from a camera mounted on a car. The camera is facing forward. "
  else if camera_name = "front_left" then
    "The video is captured from a camera mounted on a car. The camera is facing to the left. "
  else if camera_name = "front_right" then
    "The video is captured from a camera mounted on a car. The camera is facing to the right. "
  else if camera_name = "rear" then
    "The video is captured from a camera mounted on a car. The camera is facing backwards. "
  else if camera_name = "rear_left" then
    "The video is captured from a camera mounted on a car. The camera is facing the rear left side. "
  else if camera_name = "rear_right" then
    "The video is captured from a camera mounted on a car. The camera is facing the rear right side. "
  else ""

/-- One iteration of the per-camera `try`/`except` loop body: fetch the
image at heading `angle + camera_angle` with the camera's field of view,
caption it, and prepend the fixed prompt (and the time-of-day clause
when the descriptor is truthy); any exception in the body is replaced
by the fixed placeholder section. -/
def cameraSection (svc : Services) (lat lon angle : ℚ) (environment_description : String)
    (time_descriptor : Option String) (entry : String × ℚ) : String :=
  let camera_name := entry.1
  let heading := angle + entry.2
  let fov := fov_list camera_name
  match svc.getStreetViewImage lat lon heading fov with
  | .error _ => camera_name ++ ": Failed to retrieve street view"
  | .ok image_data =>
      match svc.analyzeImage image_data environment_description time_descriptor with
      | .error _ => camera_name ++ ": Failed to retrieve street view"
      | .ok description =>
          let timeClause :=
            if truthy time_descriptor then
              "The scene occurs during the " ++ time_descriptor.getD "" ++ ". "
            else ""
          camera_name ++ ": " ++ default_prompt_list camera_name ++ timeClause ++ description

/-- The captioning stage of a camera's section: the placeholder when
the captioning raises, the prompt text, time clause and caption
otherwise. -/
def captionPart (svc : Services) (environment_description : String)
    (time_descriptor : Option String) (dp : String) (image_data : String) : String :=
  match svc.analyzeImage image_data environment_description time_descriptor with
  | .error _ => "Failed to retrieve street view"
  | .ok description =>
      dp ++
        (if truthy time_descriptor then
          "The scene occurs during the " ++ time_descriptor.getD "" ++ ". "
        else "") ++ description

/-- The part of a camera's section after the `"name: "` label: the
placeholder text when the fetch or the captioning raises, the prompt
text, time clause and caption otherwise. -/
def sectionRest (svc : Services) (lat lon angle : ℚ) (environment_description : String)
    (time_descriptor : Option String) (entry : String × ℚ) : String :=
  match svc.getStreetViewImage lat lon (angle + entry.2) (fov_list entry.1) with
  | .error _ => "Failed to retrieve street view"
  | .ok image_data =>
      captionPart svc environment_description time_descriptor
        (default_prompt_list entry.1) image_data

/-- A service whose image fetch succeeds with a payload recording the
requested heading and field of view, and whose captioning echoes the
image payload: used to observe the arguments the orchestrator passes. -/
def probeServices (g : ℚ → Nat → String) : Services :=
  { getStreetViewImage := fun _ _ heading fov => Except.ok (g heading fov)
    analyzeImage := fun image_data _ _ => Except.ok image_data }

/-- Model of `get_streetview_image_and_description`: resolve the vehicle pose
(returning the fixed not-found string when it fails), project the
coordinates through the SUMO net (modelled by the `convertXY2LonLat`
parameter, which returns `(lon, lat)`), load the environment context,
then produce one section per camera of `camera_angle_list` and join
them with blank lines. -/
def get_streetview_image_and_description (svc : Services)
    (convertXY2LonLat : ℚ → ℚ → ℚ × ℚ) (report : ReportFile)
    (log : TrajectoryLog) (vehicle_id : String) (target_time : ℚ) : String :=
  match get_vehicle_position_at_time log vehicle_id target_time with
  | none => "Vehicle not found at the specified time"
  | some (x, y, angle) =>
      let lonlat := convertXY2LonLat x y
      let lon := lonlat.1
      let lat := lonlat.2
      let context := _load_environment_context report
      let descriptions :=
        camera_angle_list.map (cameraSection svc lat lon angle context.1 context.2)
      String.intercalate "\n\n" descriptions

/-! ### Concrete data used by counterexamples and witnesses -/

/-- A trajectory log whose only record for `"veh_1"` sits at time `0`,
while time `10` has no vehicles. -/
def c2log : TrajectoryLog := [⟨0, [⟨"veh_1", 1, 2, 3⟩]⟩, ⟨10, []⟩]

/-- A service stub whose image fetch and captioning always succeed. -/
def okServices : Services :=
  { getStreetViewImage := fun _ _ _ _ => Except.ok "img"
    analyzeImage := fun _ _ _ => Except.ok "cap" }

/-- A service stub whose image fetch always raises. -/
def failServices : Services :=
  { getStreetViewImage := fun _ _ _ _ => Except.error "boom"
    analyzeImage := fun _ _ _ => Except.ok "cap" }

/-- A one-timestep trajectory log holding a single record for
`"veh_1"`. -/
def c3log : TrajectoryLog := [⟨2, [⟨"veh_1", 10, 20, 90⟩]⟩]

/-- The six camera names in iteration order. -/
def cameraNames : List String := camera_angle_list.map Prod.fst

/-- The shape the spec claims for the orchestrator's output: six
sections, one per fixed camera name in order, each prefixed by its
camera name and joined by blank lines. -/
def sixSectionForm (s : String) : Prop :=
  ∃ r1 r2 r3 r4 r5 r6 : String,
    s = "front: " ++ r1 ++ "\n\n" ++ "front_left: " ++ r2 ++ "\n\n" ++ "front_right: " ++ r3 ++
      "\n\n" ++ "rear: " ++ r4 ++ "\n\n" ++ "rear_left: " ++ r5 ++ "\n\n" ++ "rear_right: " ++ r6

/-! ### Pose lookup: selection lemmas -/

theorem scan_spec (target : ℚ) (l : List Timestep) : ∀ (b0 : Timestep),
    List.Pairwise (fun a b : Timestep => a.time ≤ b.time) (b0 :: l) →
    ∃ b, l.foldl (stepClosest target) (some (b0, |b0.time - target|)) =
        some (b, |b.time - target|) ∧
      b ∈ b0 :: l ∧
      (∀ ts ∈ b0 :: l, |b.time - target| ≤ |ts.time - target|) ∧
      (∀ ts ∈ b0 :: l, |ts.time - target| = |b.time - target| → b.time ≤ ts.time) := by
  induction l with
  | nil =>
      intro b0 _
      exact ⟨b0, rfl, by simp, by simp, by simp⟩
  | cons c rest ih =>
      intro b0 hs
      have hb0c : b0.time ≤ c.time := (List.pairwise_cons.1 hs).1 c (by simp)
      have hrest : List.Pairwise (fun a b : Timestep => a.time ≤ b.time) (c :: rest) :=
        (List.pairwise_cons.1 hs).2
      rw [List.foldl_cons]
      by_cases h : |c.time - target| < |b0.time - target|
      · have hstep : stepClosest target (some (b0, |b0.time - target|)) c =
            some (c, |c.time - target|) := by
          simp [stepClosest, h]
        rw [hstep]
        obtain ⟨b, hfold, hmem, hmin, htie⟩ := ih c hrest
        have hminc : |b.time - target| ≤ |c.time - target| := hmin c (by simp)
        refine ⟨b, hfold, List.mem_cons_of_mem _ hmem, ?_, ?_⟩
        · intro u hu
          rcases List.mem_cons.1 hu with h1 | h2
          · rw [h1]; linarith
          · exact hmin u h2
        · intro u hu heq
          rcases List.mem_cons.1 hu with h1 | h2
          · rw [h1] at heq; linarith
          · exact htie u h2 heq
      · have hstep : stepClosest target (some (b0, |b0.time - target|)) c =
            some (b0, |b0.time - target|) := by
          simp [stepClosest, h]
        rw [hstep]
        have hb0rest : List.Pairwise (fun a b : Timestep => a.time ≤ b.time) (b0 :: rest) := by
          refine List.pairwise_cons.2 ⟨?_, (List.pairwise_cons.1 hrest).2⟩
          intro a ha
          exact (List.pairwise_cons.1 hs).1 a (List.mem_cons_of_mem _ ha)
        obtain ⟨b, hfold, hmem, hmin, htie⟩ := ih b0 hb0rest
        push_neg at h
        have hminb0 : |b.time - target| ≤ |b0.time - target| := hmin b0 (by simp)
        refine ⟨b, hfold, ?_, ?_, ?_⟩
        · rcases List.mem_cons.1 hmem with h1 | h2
          · rw [h1]; exact List.mem_cons_self _ _
          · exact List.mem_cons_of_mem _ (List.mem_cons_of_mem _ h2)
        · intro u hu
          rcases List.mem_cons.1 hu with h1 | h2
          · rw [h1]; exact hminb0
          · rcases List.mem_cons.1 h2 with h3 | h4
            · rw [h3]; linarith
            · exact hmin u (List.mem_cons_of_mem _ h4)
        · intro u hu heq
          rcases List.mem_cons.1 hu with h1 | h2
          · rw [h1] at heq ⊢
            exact htie b0 (by simp) heq
          · rcases List.mem_cons.1 h2 with h3 | h4
            · rw [h3] at heq ⊢
              have heq2 : |b0.time - target| = |b.time - target| := by
                have : |b.time - target| ≤ |c.time - target| := by rw [heq]
                linarith
              have := htie b0 (by simp) heq2
              linarith
            · exact htie u (List.mem_cons_of_mem _ h4) heq

theorem sortTimesteps_pairwise (log : TrajectoryLog) :
    (sortTimesteps log).Pairwise (fun a b : Timestep => a.time ≤ b.time) := by
  have htrans : ∀ a b c : Timestep, timeLE a b → timeLE b c → timeLE a c :=
    fun a b c hab hbc => by
      simp only [timeLE, decide_eq_true_eq] at *
      exact le_trans hab hbc
  have htotal : ∀ a b : Timestep, timeLE a b || timeLE b a := fun a b => by
    simp only [timeLE, Bool.or_eq_true, decide_eq_true_eq]
    exact le_total a.time b.time
  have h : (List.mergeSort log timeLE).Pairwise (fun a b : Timestep => timeLE a b = true) :=
    List.sorted_mergeSort htrans htotal log
  exact h.imp (fun hab => by simpa [timeLE] using hab)

theorem selectTimestep_spec (log : TrajectoryLog) (target : ℚ) (b : Timestep)
    (h : selectTimestep log target = some b) :
    b ∈ log ∧ (∀ ts ∈ log, |b.time - target| ≤ |ts.time - target|) ∧
      (∀ ts ∈ log, |ts.time - target| = |b.time - target| → b.time ≤ ts.time) := by
  have hperm : (sortTimesteps log).Perm log := List.mergeSort_perm log timeLE
  have hsorted := sortTimesteps_pairwise log
  unfold selectTimestep at h
  cases hrep : sortTimesteps log with
  | nil =>
      rw [hrep] at h
      simp at h
  | cons b0 rest =>
      rw [hrep] at h hsorted
      rw [List.foldl_cons] at h
      have hstep0 : stepClosest target none b0 = some (b0, |b0.time - target|) := rfl
      rw [hstep0] at h
      obtain ⟨b', hfold, hmem, hmin, htie⟩ := scan_spec target rest b0 hsorted
      rw [hfold] at h
      simp at h
      have hmemlog : ∀ u, u ∈ b0 :: rest → u ∈ log := fun u hu =>
        hperm.mem_iff.1 (by rw [hrep]; exact hu)
      have hloglist : ∀ u, u ∈ log → u ∈ b0 :: rest := fun u hu => by
        rw [← hrep]; exact hperm.mem_iff.2 hu
      subst h
      exact ⟨hmemlog b' hmem,
        fun ts hts => hmin ts (hloglist ts hts),
        fun ts hts heq => htie ts (hloglist ts hts) heq⟩

theorem foldl_stepClosest_isSome (target : ℚ) (l : List Timestep) :
    ∀ p : Timestep × ℚ, (l.foldl (stepClosest target) (some p)).isSome := by
  induction l with
  | nil => intro p; rfl
  | cons c rest ih =>
      intro p
      obtain ⟨best, minDiff⟩ := p
      rw [List.foldl_cons]
      by_cases h : |c.time - target| < minDiff
      · rw [show stepClosest target (some (best, minDiff)) c = some (c, |c.time - target|) from
          by simp [stepClosest, h]]
        exact ih _
      · rw [show stepClosest target (some (best, minDiff)) c = some (best, minDiff) from
          by simp [stepClosest, h]]
        exact ih _

theorem selectTimestep_isSome (log : TrajectoryLog) (target : ℚ) (h : log ≠ []) :
    (selectTimestep log target).isSome := by
  unfold selectTimestep
  cases hrep : sortTimesteps log with
  | nil =>
      have hp : (sortTimesteps log).Perm log := List.mergeSort_perm log timeLE
      rw [hrep] at hp
      exact absurd hp.symm.eq_nil h
  | cons b0 rest =>
      rw [List.foldl_cons]
      have hstep0 : stepClosest target none b0 = some (b0, |b0.time - target|) := rfl
      rw [hstep0]
      have := foldl_stepClosest_isSome target rest (b0, |b0.time - target|)
      cases hres : rest.foldl (stepClosest target) (some (b0, |b0.time - target|)) with
      | none => rw [hres] at this; simp at this
      | some p => rfl

/-! ### Claim C1 -/

/-- C1: for every trajectory log and target time, the timestep selected
by the pose lookup has absolute timestamp distance to the target less
than or equal to that of every other timestep in the log, and whenever
another timestep is equally close, the selected one's timestamp is the
earliest (so the first in ascending-sorted order is kept, the scan
replacing only on strict less-than). -/
theorem C1_nearest_timestep_selected (log : TrajectoryLog) (target : ℚ) (b : Timestep)
    (h : selectTimestep log target = some b) :
    ∀ ts ∈ log, |b.time - target| ≤ |ts.time - target| ∧
      (|ts.time - target| = |b.time - target| → b.time ≤ ts.time) := by
  obtain ⟨-, hmin, htie⟩ := selectTimestep_spec log target b h
  exact fun ts hts => ⟨hmin ts hts, htie ts hts⟩

/-- Witness for C1 at a concrete log: of the timesteps at times `2` and
`4`, the one at `2` is selected for target `3` (equal distance `1`,
earlier timestamp wins). -/
theorem C1_nearest_timestep_selected_witness :
    selectTimestep [⟨2, []⟩, ⟨4, []⟩] 3 = some ⟨2, []⟩ ∧
      ∀ ts ∈ ([⟨2, []⟩, ⟨4, []⟩] : TrajectoryLog),
        |Timestep.time ⟨2, []⟩ - 3| ≤ |ts.time - 3| ∧
          (|ts.time - 3| = |Timestep.time ⟨2, []⟩ - 3| → Timestep.time ⟨2, []⟩ ≤ ts.time) := by
  have hsorted : sortTimesteps [⟨2, []⟩, ⟨4, []⟩] = [⟨2, []⟩, ⟨4, []⟩] := by
    unfold sortTimesteps
    apply List.mergeSort_of_sorted
    simp [timeLE]
    norm_num
  have hsel : selectTimestep [⟨2, []⟩, ⟨4, []⟩] 3 = some ⟨2, []⟩ := by
    simp [selectTimestep, hsorted, stepClosest]
    norm_num
  exact ⟨hsel, C1_nearest_timestep_selected [⟨2, []⟩, ⟨4, []⟩] 3 ⟨2, []⟩ hsel⟩

/-! ### Claim C3 -/

/-- C3: the pose lookup returns the `(x, y, angle)` triple exactly when
a nearest timestep exists and holds a record matching the queried id;
an empty log yields `none`, a non-empty log always yields a selected
timestep, and a missing vehicle id in the selected timestep yields
`none` — the function is total, so no exception is ever raised. -/
theorem C3_lookup_result (log : TrajectoryLog) (vid : String) (target : ℚ) :
    (log = [] → get_vehicle_position_at_time log vid target = none) ∧
    (log ≠ [] → ∃ b, selectTimestep log target = some b) ∧
    (∀ b, selectTimestep log target = some b →
      (∀ v, b.vehicles.find? (fun r => r.id == vid) = some v →
        get_vehicle_position_at_time log vid target = some (v.x, v.y, v.angle)) ∧
      (b.vehicles.find? (fun r => r.id == vid) = none →
        get_vehicle_position_at_time log vid target = none)) ∧
    (∀ p, get_vehicle_position_at_time log vid target = some p →
      ∃ b v, selectTimestep log target = some b ∧
        b.vehicles.find? (fun r => r.id == vid) = some v ∧ p = (v.x, v.y, v.angle)) := by
  refine ⟨?_, ?_, ?_, ?_⟩
  · intro h
    subst h
    simp [get_vehicle_position_at_time, selectTimestep, sortTimesteps]
  · intro h
    exact Option.isSome_iff_exists.1 (selectTimestep_isSome log target h)
  · intro b hb
    constructor
    · intro v hv
      simp [get_vehicle_position_at_time, hb, hv]
    · intro hv
      simp [get_vehicle_position_at_time, hb, hv]
  · intro p hp
    unfold get_vehicle_position_at_time at hp
    cases hsel : selectTimestep log target with
    | none => rw [hsel] at hp; simp at hp
    | some b =>
        rw [hsel] at hp
        simp only at hp
        cases hfind : b.vehicles.find? (fun r => r.id == vid) with
        | none => rw [hfind] at hp; simp at hp
        | some v =>
            rw [hfind] at hp
            simp at hp
            exact ⟨b, v, rfl, by rw [hfind], hp.symm⟩

/-- Witness for C3: on the empty log the lookup yields `none`; on a
one-timestep log it yields the stored pose for the present id and
`none` for an absent id. -/
theorem C3_lookup_result_witness :
    get_vehicle_position_at_time [] "veh_1" 2 = none ∧
    get_vehicle_position_at_time c3log "veh_1" 2 =
      some (VehicleRecord.x ⟨"veh_1", 10, 20, 90⟩, VehicleRecord.y ⟨"veh_1", 10, 20, 90⟩,
        VehicleRecord.angle ⟨"veh_1", 10, 20, 90⟩) ∧
    get_vehicle_position_at_time c3log "veh_2" 2 = none := by
  have hsel : selectTimestep c3log 2 = some ⟨2, [⟨"veh_1", 10, 20, 90⟩]⟩ := by
    simp [selectTimestep, sortTimesteps, c3log, stepClosest]
  refine ⟨(C3_lookup_result [] "veh_1" 2).1 rfl, ?_, ?_⟩
  · exact ((C3_lookup_result c3log "veh_1" 2).2.2.1 ⟨2, [⟨"veh_1", 10, 20, 90⟩]⟩ hsel).1
      ⟨"veh_1", 10, 20, 90⟩ rfl
  · exact ((C3_lookup_result c3log "veh_2" 2).2.2.1 ⟨2, [⟨"veh_1", 10, 20, 90⟩]⟩ hsel).2 rfl

/-! ### Context extraction lemmas -/

theorem parseAccidentTime_ne_empty (s : String) (q : Nat × Nat × Nat × Nat × Nat)
    (h : parseAccidentTime s = some q) : s.isEmpty = false := by
  cases hs : s.isEmpty with
  | false => rfl
  | true =>
      have hs' : s = "" := (String.isEmpty_iff s).1 hs
      rw [hs'] at h
      rw [show parseAccidentTime "" = none from rfl] at h
      exact Option.noConfusion h

theorem hourDescriptor_cases (H : Nat) :
    hourDescriptor H = "morning" ∨ hourDescriptor H = "noon" ∨
      hourDescriptor H = "afternoon" ∨ hourDescriptor H = "evening" ∨
      hourDescriptor H = "night" := by
  unfold hourDescriptor
  split_ifs <;> simp

theorem timeDescriptorOf_eq_some (data : ReportData) (d : String)
    (h : timeDescriptorOf data = some d) :
    d = "morning" ∨ d = "noon" ∨ d = "afternoon" ∨ d = "evening" ∨ d = "night" := by
  unfold timeDescriptorOf at h
  split at h
  · split at h
    · next hp =>
        have hd : d = hourDescriptor _ := (Option.some.injEq _ _ ▸ h).symm
        rw [hd]
        exact hourDescriptor_cases _
    · exact absurd h (by simp)
  · exact absurd h (by simp)

theorem timeDescriptorOf_truthy (data : ReportData) (d : String)
    (h : timeDescriptorOf data = some d) : truthy (some d) = true := by
  rcases timeDescriptorOf_eq_some data d h with h1 | h1 | h1 | h1 | h1 <;>
    rw [h1] <;> rfl

/-! ### Claim C4 -/

/-- C4: the hour of a well-formed `MM/DD/YYYY HH:MM` accident time is
mapped to exactly one time-of-day label by the fixed buckets
`[5,11) → morning`, `[11,13) → noon`, `[13,17) → afternoon`,
`[17,19) → evening`, else `night`; in particular `03/15/2024 08:30`
yields `morning`, `03/15/2024 23:00` yields `night`, and
`03/15/2024 12:00` yields `noon`. -/
theorem C4_hour_buckets :
    (∀ H : Nat,
      (5 ≤ H ∧ H < 11 → hourDescriptor H = "morning") ∧
      (11 ≤ H ∧ H < 13 → hourDescriptor H = "noon") ∧
      (13 ≤ H ∧ H < 17 → hourDescriptor H = "afternoon") ∧
      (17 ≤ H ∧ H < 19 → hourDescriptor H = "evening") ∧
      (H < 5 ∨ 19 ≤ H → hourDescriptor H = "night")) ∧
    (∀ (data : ReportData) (s : String) (mo da yr H mi : Nat),
      data.accident_time = some s →
      parseAccidentTime s = some (mo, da, yr, H, mi) →
      (_load_environment_context (.parsed data)).2 = some (hourDescriptor H)) ∧
    (_load_environment_context
      (.parsed ⟨none, none, none, some "03/15/2024 08:30"⟩)).2 = some "morning" ∧
    (_load_environment_context
      (.parsed ⟨none, none, none, some "03/15/2024 23:00"⟩)).2 = some "night" ∧
    (_load_environment_context
      (.parsed ⟨none, none, none, some "03/15/2024 12:00"⟩)).2 = some "noon" := by
  refine ⟨?_, ?_, by decide, by decide, by decide⟩
  · intro H
    refine ⟨fun h => ?_, fun h => ?_, fun h => ?_, fun h => ?_, fun h => ?_⟩ <;>
      (unfold hourDescriptor; split_ifs <;> first | rfl | omega)
  · intro data s mo da yr H mi hacc hparse
    show timeDescriptorOf data = some (hourDescriptor H)
    unfold timeDescriptorOf
    rw [hacc]
    have htr : truthy (some s) = true := by
      have hne := parseAccidentTime_ne_empty s _ hparse
      simp [truthy, hne]
    rw [htr, if_pos rfl]
    simp only [Option.getD_some]
    rw [hparse]

/-- Witness for C4: hour `8` falls in the morning bucket, and the
pipeline applied to `03/15/2024 08:30` produces that bucket's label. -/
theorem C4_hour_buckets_witness :
    hourDescriptor 8 = "morning" ∧
    (_load_environment_context
      (.parsed ⟨none, none, none, some "03/15/2024 08:30"⟩)).2 = some (hourDescriptor 8) := by
  constructor
  · exact (C4_hour_buckets.1 8).1 (by omega)
  · exact C4_hour_buckets.2.1 ⟨none, none, none, some "03/15/2024 08:30"⟩
      "03/15/2024 08:30" 3 15 2024 8 30 rfl (by decide)

/-! ### Claim C5 -/

/-- C5 counterexample: for a report whose `accident_time` string is
malformed but whose `weather` field is present, context extraction does
not return the claimed `("", none)`: the summary still lists the
weather field. -/
theorem C5_counterexample :
    parseAccidentTime "not a time" = none ∧
    _load_environment_context (.parsed ⟨some "rain", none, none, some "not a time"⟩) =
      ("weather: rain", none) ∧
    ("weather: rain", (none : Option String)) ≠ (("", none) : String × Option String) := by
  refine ⟨by decide, by decide, by decide⟩

/-- C5 (amended): a missing or unparsable report yields `("", none)`
without raising; a malformed accident-time string yields no time
descriptor and no exception, but the summary still lists the other
present fields (it is empty only when they are all absent). -/
theorem C5_amended_degradation :
    _load_environment_context .missing = ("", none) ∧
    _load_environment_context .unparsable = ("", none) ∧
    (∀ (data : ReportData) (s : String), data.accident_time = some s →
      parseAccidentTime s = none →
      _load_environment_context (.parsed data) =
        (String.intercalate ", " (baseComponents data), none)) := by
  refine ⟨rfl, rfl, ?_⟩
  intro data s hacc hparse
  have htd : timeDescriptorOf data = none := by
    unfold timeDescriptorOf
    rw [hacc]
    cases htr : truthy (some s) with
    | false => rfl
    | true =>
        rw [if_pos rfl]
        simp only [Option.getD_some]
        rw [hparse]
  show (String.intercalate ", " (contextComponents data), timeDescriptorOf data) = _
  rw [htd]
  unfold contextComponents
  rw [htd]
  rfl

/-- Witness for C5 (amended): a malformed time string next to a present
weather field degrades to a weather-only summary and no descriptor. -/
theorem C5_amended_degradation_witness :
    _load_environment_context .missing = ("", none) ∧
    _load_environment_context
        (.parsed ⟨some "rain", none, none, some "not a time"⟩) =
      (String.intercalate ", "
        (baseComponents ⟨some "rain", none, none, some "not a time"⟩), none) := by
  refine ⟨C5_amended_degradation.1, ?_⟩
  exact C5_amended_degradation.2.2 ⟨some "rain", none, none, some "not a time"⟩
    "not a time" rfl (by decide)

/-! ### Component shape lemmas -/

theorem append_left_cancel_str (p a b : String) (h : p ++ a = p ++ b) : a = b := by
  apply String.ext
  have h2 := congrArg String.data h
  simp only [String.data_append] at h2
  exact List.append_cancel_left h2

theorem weather_ne_timeComponent (w d : String) :
    "weather: " ++ w ≠ "time of day: " ++ d := by
  intro h
  have h2 := congrArg String.data h
  simp only [String.data_append] at h2
  simp only [List.cons_append, List.cons.injEq] at h2
  exact absurd h2.1 (by decide)

theorem lighting_ne_timeComponent (l d : String) :
    "lighting: " ++ l ≠ "time of day: " ++ d := by
  intro h
  have h2 := congrArg String.data h
  simp only [String.data_append] at h2
  simp only [List.cons_append, List.cons.injEq] at h2
  exact absurd h2.1 (by decide)

theorem road_ne_timeComponent (r d : String) :
    "road surface: " ++ r ≠ "time of day: " ++ d := by
  intro h
  have h2 := congrArg String.data h
  simp only [String.data_append] at h2
  simp only [List.cons_append, List.cons.injEq] at h2
  exact absurd h2.1 (by decide)

theorem mem_baseComponents (data : ReportData) (x : String) (hx : x ∈ baseComponents data) :
    x = "weather: " ++ data.weather.getD "" ∨ x = "lighting: " ++ data.light.getD "" ∨
      x = "road surface: " ++ data.road_surface.getD "" := by
  unfold baseComponents at hx
  cases hw : truthy data.weather <;> cases hl : truthy data.light <;>
    cases hr : truthy data.road_surface <;> simp [hw, hl, hr] at hx <;> tauto

theorem baseComponents_no_time (data : ReportData) (d : String) :
    ("time of day: " ++ d) ∉ baseComponents data := by
  intro hmem
  rcases mem_baseComponents data _ hmem with h | h | h
  · exact weather_ne_timeComponent _ _ h.symm
  · exact lighting_ne_timeComponent _ _ h.symm
  · exact road_ne_timeComponent _ _ h.symm

theorem contextComponents_eq_spec (data : ReportData) :
    contextComponents data =
      specComponents data.weather data.light data.road_surface (timeDescriptorOf data) := by
  unfold contextComponents baseComponents specComponents
  cases truthy data.weather <;> cases truthy data.light <;>
    cases truthy data.road_surface <;> cases truthy (timeDescriptorOf data) <;> simp

/-! ### Claim C8 -/

/-- C8: the summary is the comma-joined concatenation, in the fixed
order weather, lighting, road surface, time of day, of exactly the
present (truthy) fields, absent fields omitted — empty when none are
present — and it is returned together with the time descriptor alone. -/
theorem C8_summary_format (data : ReportData) :
    _load_environment_context (.parsed data) =
      (String.intercalate ", "
        (specComponents data.weather data.light data.road_surface (timeDescriptorOf data)),
        timeDescriptorOf data) ∧
    (truthy data.weather = false → truthy data.light = false →
      truthy data.road_surface = false → timeDescriptorOf data = none →
      (_load_environment_context (.parsed data)).1 = "") := by
  constructor
  · show (String.intercalate ", " (contextComponents data), timeDescriptorOf data) = _
    rw [contextComponents_eq_spec]
  · intro hw hl hr htd
    show String.intercalate ", " (contextComponents data) = ""
    rw [contextComponents_eq_spec]
    unfold specComponents
    rw [hw, hl, hr, htd]
    rfl

/-- Witness for C8: with all four fields absent the summary is the
empty string and the descriptor is `none`. -/
theorem C8_summary_format_witness :
    truthy (ReportData.weather ⟨none, none, none, none⟩) = false ∧
    timeDescriptorOf ⟨none, none, none, none⟩ = none ∧
    (_load_environment_context (.parsed ⟨none, none, none, none⟩)).1 = "" :=
  ⟨rfl, rfl, (C8_summary_format ⟨none, none, none, none⟩).2 rfl rfl rfl rfl⟩

/-! ### Claim C10 -/

/-- C10: the two values returned by context extraction are mutually
consistent: the summary is the join of the component list, and that
list contains the component `"time of day: D"` exactly when the
returned descriptor is `some D`; a `none` descriptor never co-occurs
with a time-of-day component. -/
theorem C10_summary_descriptor_consistency (data : ReportData) :
    (_load_environment_context (.parsed data)).1 =
      String.intercalate ", " (contextComponents data) ∧
    ∀ d, ((_load_environment_context (.parsed data)).2 = some d ↔
      ("time of day: " ++ d) ∈ contextComponents data) := by
  refine ⟨rfl, fun d => ⟨?_, ?_⟩⟩
  · intro h
    have h' : timeDescriptorOf data = some d := h
    have htr := timeDescriptorOf_truthy data d h'
    unfold contextComponents
    rw [h', htr, if_pos rfl]
    simp
  · intro hmem
    show timeDescriptorOf data = some d
    unfold contextComponents at hmem
    cases htd : timeDescriptorOf data with
    | none =>
        rw [htd] at hmem
        rw [show truthy none = false from rfl] at hmem
        simp only [Bool.false_eq_true, if_false] at hmem
        exact absurd hmem (baseComponents_no_time data d)
    | some d' =>
        rw [htd, timeDescriptorOf_truthy data d' htd, if_pos rfl] at hmem
        simp only [Option.getD_some] at hmem
        rcases List.mem_append.1 hmem with h | h
        · exact absurd h (baseComponents_no_time data d)
        · have heq : "time of day: " ++ d = "time of day: " ++ d' := by simpa using h
          rw [append_left_cancel_str _ _ _ heq]

/-- Witness for C10 at a concrete report: the descriptor `morning`
appears as the `time of day` component of the component list, and the
summary is their join. -/
theorem C10_summary_descriptor_consistency_witness :
    ((_load_environment_context
        (.parsed ⟨none, none, none, some "03/15/2024 08:30"⟩)).2 = some "morning" ↔
      ("time of day: " ++ "morning") ∈
        contextComponents ⟨none, none, none, some "03/15/2024 08:30"⟩) ∧
    ((_load_environment_context (.parsed ⟨none, none, none, some "03/15/2024 08:30"⟩)).1 =
      String.intercalate ", "
        (contextComponents ⟨none, none, none, some "03/15/2024 08:30"⟩)) :=
  ⟨(C10_summary_descriptor_consistency ⟨none, none, none, some "03/15/2024 08:30"⟩).2 "morning",
   (C10_summary_descriptor_consistency ⟨none, none, none, some "03/15/2024 08:30"⟩).1⟩
/-! ### Construction lemmas -/

theorem init_maps_missing (env : Env) (gm om : Option String)
    (h : truthy env.google_maps_api_key = false) :
    init env gm om = Except.error "Google Maps API key is required" := by
  simp [init, h]

theorem init_openrouter_key_missing (env : Env) (gm om : Option String)
    (hmaps : truthy env.google_maps_api_key = true) (hom : truthy om = true)
    (hok : truthy env.openrouter_api_key = false) :
    init env gm om =
      Except.error "OpenRouter API key is required when openrouter_model is specified" := by
  simp [init, hmaps, hom, hok]

theorem init_openrouter_ok (env : Env) (gm om : Option String)
    (hmaps : truthy env.google_maps_api_key = true) (hom : truthy om = true)
    (hok : truthy env.openrouter_api_key = true) :
    init env gm om = Except.ok
      { google_maps_api_key := env.google_maps_api_key.getD ""
        gemini_model_name :=
          if truthy gm then gm.getD "" else env.gemini_model_name.getD "gemini-2.5-pro"
        openrouter_model_name := om
        use_openrouter := truthy om
        gemini_client := none
        openrouter_api_key := env.openrouter_api_key } := by
  simp [init, hmaps, hom, hok]

theorem init_gemini_key_missing (env : Env) (gm om : Option String)
    (hmaps : truthy env.google_maps_api_key = true) (hom : truthy om = false)
    (hgk : truthy env.gemini_api_key = false) :
    init env gm om = Except.error "Google Gemini API key is required" := by
  simp [init, hmaps, hom, hgk]

theorem init_gemini_ok (env : Env) (gm om : Option String)
    (hmaps : truthy env.google_maps_api_key = true) (hom : truthy om = false)
    (hgk : truthy env.gemini_api_key = true) :
    init env gm om = Except.ok
      { google_maps_api_key := env.google_maps_api_key.getD ""
        gemini_model_name :=
          if truthy gm then gm.getD "" else env.gemini_model_name.getD "gemini-2.5-pro"
        openrouter_model_name := om
        use_openrouter := truthy om
        gemini_client := some
          (if truthy gm then gm.getD "" else env.gemini_model_name.getD "gemini-2.5-pro")
        openrouter_api_key := none } := by
  simp [init, hmaps, hom, hgk]

/-! ### Claim C9 -/

/-- C9: construction requires the `GOOGLE_MAPS_API_KEY` credential
unconditionally: if it is not truthy the constructor fails with the
maps-key `ValueError` regardless of every other input, before any
backend credential is examined, and every successfully constructed
instance carries it. -/
theorem C9_maps_key_required (env : Env) (gm om : Option String) :
    (truthy env.google_maps_api_key = false →
      init env gm om = Except.error "Google Maps API key is required") ∧
    (∀ c, init env gm om = Except.ok c →
      truthy env.google_maps_api_key = true ∧
        env.google_maps_api_key = some c.google_maps_api_key) := by
  constructor
  · exact init_maps_missing env gm om
  · intro c h
    cases htr : truthy env.google_maps_api_key with
    | false =>
        rw [init_maps_missing env gm om htr] at h
        exact Except.noConfusion h
    | true =>
        refine ⟨rfl, ?_⟩
        have hgetD : env.google_maps_api_key = some (env.google_maps_api_key.getD "") := by
          cases henv : env.google_maps_api_key with
          | none => rw [henv] at htr; exact Bool.noConfusion htr
          | some s => rfl
        cases hom : truthy om with
        | true =>
            cases hok : truthy env.openrouter_api_key with
            | false =>
                rw [init_openrouter_key_missing env gm om htr hom hok] at h
                exact Except.noConfusion h
            | true =>
                rw [init_openrouter_ok env gm om htr hom hok] at h
                simp only [Except.ok.injEq] at h
                rw [← h]
                exact hgetD
        | false =>
            cases hgk : truthy env.gemini_api_key with
            | false =>
                rw [init_gemini_key_missing env gm om htr hom hgk] at h
                exact Except.noConfusion h
            | true =>
                rw [init_gemini_ok env gm om htr hom hgk] at h
                simp only [Except.ok.injEq] at h
                rw [← h]
                exact hgetD

/-- Witness for C9: with the maps key unset, construction fails with
the maps-key error even though both backend credentials are set. -/
theorem C9_maps_key_required_witness :
    truthy (Env.google_maps_api_key ⟨none, none, some "okey", some "gkey"⟩) = false ∧
    init ⟨none, none, some "okey", some "gkey"⟩ none none =
      Except.error "Google Maps API key is required" :=
  ⟨rfl, (C9_maps_key_required ⟨none, none, some "okey", some "gkey"⟩ none none).1 rfl⟩

/-! ### Claim C6 -/

/-- C6: past the maps-key check, exactly one caption backend is
selected by the truthiness of the `openrouter_model` argument; the
selected backend's credential is required (its absence is a
construction-time configuration error), the other backend is never
initialized — the constructor's result does not even depend on the
other backend's credential — and on success the constructed state
holds exactly the selected backend. -/
theorem C6_backend_exclusive (env : Env) (gm om : Option String)
    (hmaps : truthy env.google_maps_api_key = true) :
    (truthy om = true →
      (truthy env.openrouter_api_key = false →
        init env gm om =
          Except.error "OpenRouter API key is required when openrouter_model is specified") ∧
      (∀ c, init env gm om = Except.ok c →
        c.use_openrouter = true ∧ c.gemini_client = none ∧
          c.openrouter_api_key = env.openrouter_api_key ∧
          truthy env.openrouter_api_key = true) ∧
      (∀ k, init env gm om = init { env with gemini_api_key := k } gm om)) ∧
    (truthy om = false →
      (truthy env.gemini_api_key = false →
        init env gm om = Except.error "Google Gemini API key is required") ∧
      (∀ c, init env gm om = Except.ok c →
        c.use_openrouter = false ∧ c.gemini_client = some c.gemini_model_name ∧
          c.openrouter_api_key = none ∧ truthy env.gemini_api_key = true) ∧
      (∀ k, init env gm om = init { env with openrouter_api_key := k } gm om)) := by
  constructor
  · intro hom
    refine ⟨init_openrouter_key_missing env gm om hmaps hom, ?_, ?_⟩
    · intro c h
      cases hok : truthy env.openrouter_api_key with
      | false =>
          rw [init_openrouter_key_missing env gm om hmaps hom hok] at h
          exact Except.noConfusion h
      | true =>
          rw [init_openrouter_ok env gm om hmaps hom hok] at h
          simp only [Except.ok.injEq] at h
          rw [← h]
          exact ⟨hom, rfl, rfl, rfl⟩
    · intro k
      simp [init, hmaps, hom]
  · intro hom
    refine ⟨init_gemini_key_missing env gm om hmaps hom, ?_, ?_⟩
    · intro c h
      cases hgk : truthy env.gemini_api_key with
      | false =>
          rw [init_gemini_key_missing env gm om hmaps hom hgk] at h
          exact Except.noConfusion h
      | true =>
          rw [init_gemini_ok env gm om hmaps hom hgk] at h
          simp only [Except.ok.injEq] at h
          rw [← h]
          exact ⟨hom, rfl, rfl, rfl⟩
    · intro k
      simp [init, hmaps, hom]

/-- Witness for C6: with the remote model named, construction ignores
the local credential entirely and fails exactly when the remote key is
missing. -/
theorem C6_backend_exclusive_witness :
    truthy (Env.google_maps_api_key ⟨some "maps", none, some "okey", some "gkey"⟩) = true ∧
    init ⟨some "maps", none, some "okey", some "gkey"⟩ none (some "m") =
      init { (⟨some "maps", none, some "okey", some "gkey"⟩ : Env) with
        gemini_api_key := none } none (some "m") ∧
    init ⟨some "maps", none, none, some "gkey"⟩ none (some "m") =
      Except.error "OpenRouter API key is required when openrouter_model is specified" := by
  refine ⟨rfl, ?_, ?_⟩
  · exact ((C6_backend_exclusive ⟨some "maps", none, some "okey", some "gkey"⟩
      none (some "m") rfl).1 rfl).2.2 none
  · exact ((C6_backend_exclusive ⟨some "maps", none, none, some "gkey"⟩
      none (some "m") rfl).1 rfl).1 rfl

/-! ### Orchestrator lemmas -/

theorem orchestrator_of_pose (svc : Services) (conv : ℚ → ℚ → ℚ × ℚ) (rep : ReportFile)
    (log : TrajectoryLog) (vid : String) (t x y angle : ℚ)
    (hpos : get_vehicle_position_at_time log vid t = some (x, y, angle)) :
    get_streetview_image_and_description svc conv rep log vid t =
      String.intercalate "\n\n"
        (camera_angle_list.map
          (cameraSection svc (conv x y).2 (conv x y).1 angle
            (_load_environment_context rep).1 (_load_environment_context rep).2)) := by
  unfold get_streetview_image_and_description
  rw [hpos]

theorem cameraSection_split (svc : Services) (lat lon angle : ℚ) (envd : String)
    (td : Option String) (entry : String × ℚ) :
    cameraSection svc lat lon angle envd td entry =
      entry.1 ++ ": " ++ sectionRest svc lat lon angle envd td entry := by
  simp only [cameraSection, sectionRest, captionPart]
  cases hf : svc.getStreetViewImage lat lon (angle + entry.2) (fov_list entry.1) with
  | error e => simp [String.append_assoc]
  | ok image_data =>
      simp only [String.append_assoc]
      cases ha : svc.analyzeImage image_data envd td with
      | error e => simp [String.append_assoc]
      | ok description => simp [String.append_assoc]

theorem sectionRest_fetch_error (svc : Services) (lat lon angle : ℚ) (envd : String)
    (td : Option String) (entry : String × ℚ) (e : String)
    (he : svc.getStreetViewImage lat lon (angle + entry.2) (fov_list entry.1) =
      Except.error e) :
    sectionRest svc lat lon angle envd td entry = "Failed to retrieve street view" := by
  simp only [sectionRest]
  rw [he]

theorem sectionRest_fetch_ok (svc : Services) (lat lon angle : ℚ) (envd : String)
    (td : Option String) (entry : String × ℚ) (image_data : String)
    (hf : svc.getStreetViewImage lat lon (angle + entry.2) (fov_list entry.1) =
      Except.ok image_data) :
    sectionRest svc lat lon angle envd td entry =
      captionPart svc envd td (default_prompt_list entry.1) image_data := by
  simp only [sectionRest]
  rw [hf]

theorem captionPart_error (svc : Services) (envd : String) (td : Option String)
    (dp image_data e : String)
    (ha : svc.analyzeImage image_data envd td = Except.error e) :
    captionPart svc envd td dp image_data = "Failed to retrieve street view" := by
  simp only [captionPart]
  rw [ha]

theorem cameraSection_fetch_fail (svc : Services) (lat lon angle : ℚ) (envd : String)
    (td : Option String) (entry : String × ℚ)
    (h : ∀ lat' lon' heading fov, ∃ e,
      svc.getStreetViewImage lat' lon' heading fov = Except.error e) :
    cameraSection svc lat lon angle envd td entry =
      entry.1 ++ ": Failed to retrieve street view" := by
  obtain ⟨e, he⟩ := h lat lon (angle + entry.2) (fov_list entry.1)
  simp only [cameraSection]
  rw [he]

/-! ### Claim C7 -/

/-- C7: the orchestrator uses exactly the six viewpoints front,
front_left, front_right, rear, rear_left, rear_right with heading
offsets 0, -66, +66, 180, -152, +152 and fields of view 120, 120, 120,
30, 70, 70; and the absolute heading handed to the image request is the
vehicle heading plus the viewpoint offset, as observed through a probe
service that records its heading and field-of-view arguments. -/
theorem C7_camera_table_and_headings :
    camera_angle_list =
      [("front", 0), ("front_left", -66), ("front_right", 66),
       ("rear", 180), ("rear_left", -152), ("rear_right", 152)] ∧
    camera_angle_list.map (fun entry => fov_list entry.1) = [120, 120, 120, 30, 70, 70] ∧
    (∀ (g : ℚ → Nat → String) (conv : ℚ → ℚ → ℚ × ℚ) (rep : ReportFile)
      (log : TrajectoryLog) (vid : String) (t x y angle : ℚ),
      get_vehicle_position_at_time log vid t = some (x, y, angle) →
      get_streetview_image_and_description (probeServices g) conv rep log vid t =
        String.intercalate "\n\n"
          (camera_angle_list.map (fun entry =>
            entry.1 ++ ": " ++ default_prompt_list entry.1 ++
              (if truthy (_load_environment_context rep).2 then
                "The scene occurs during the " ++
                  ((_load_environment_context rep).2).getD "" ++ ". "
              else "") ++ g (angle + entry.2) (fov_list entry.1)))) := by
  refine ⟨rfl, by decide, ?_⟩
  intro g conv rep log vid t x y angle hpos
  rw [orchestrator_of_pose (probeServices g) conv rep log vid t x y angle hpos]
  rfl

/-- Witness for C7: on a one-record log the probe service observes the
six headings `90 + offset` and the six fixed fields of view. -/
theorem C7_camera_table_and_headings_witness :
    get_vehicle_position_at_time c3log "veh_1" 2 = some (10, 20, 90) ∧
    get_streetview_image_and_description (probeServices (fun _ _ => "IMG"))
        (fun a b => (a, b)) .missing c3log "veh_1" 2 =
      String.intercalate "\n\n"
        (camera_angle_list.map (fun entry =>
          entry.1 ++ ": " ++ default_prompt_list entry.1 ++
            (if truthy (_load_environment_context .missing).2 then
              "The scene occurs during the " ++
                ((_load_environment_context ReportFile.missing).2).getD "" ++ ". "
            else "") ++
            (fun (_ : ℚ) (_ : Nat) => "IMG") ((90 : ℚ) + entry.2) (fov_list entry.1))) := by
  have hsel : selectTimestep c3log 2 = some ⟨2, [⟨"veh_1", 10, 20, 90⟩]⟩ := by
    simp [selectTimestep, sortTimesteps, c3log, stepClosest]
  have hpos : get_vehicle_position_at_time c3log "veh_1" 2 = some (10, 20, 90) := by
    simp [get_vehicle_position_at_time, hsel]
  exact ⟨hpos,
    C7_camera_table_and_headings.2.2 (fun _ _ => "IMG") (fun a b => (a, b)) .missing
      c3log "veh_1" 2 10 20 90 hpos⟩

/-! ### Claim C2 -/

/-- C2 counterexample: a trajectory log that does hold a record for the
queried vehicle at some timestep, but not at the timestep nearest the
target time.  The orchestrator then returns the single not-found
string, not six camera sections — the claim's hypothesis (a record at
some timestep) is not enough. -/
theorem C2_counterexample :
    (c2log.map (fun ts => ts.vehicles.any (fun v => v.id == "veh_1"))).any id = true ∧
    get_streetview_image_and_description okServices (fun a b => (a, b))
        .missing c2log "veh_1" 10 = "Vehicle not found at the specified time" ∧
    ¬ sixSectionForm "Vehicle not found at the specified time" := by
  refine ⟨rfl, ?_, ?_⟩
  · have hsorted : sortTimesteps [⟨0, [⟨"veh_1", 1, 2, 3⟩]⟩, ⟨10, []⟩] =
        [⟨0, [⟨"veh_1", 1, 2, 3⟩]⟩, ⟨10, []⟩] := by
      unfold sortTimesteps
      apply List.mergeSort_of_sorted
      norm_num [timeLE]
    have hsel : selectTimestep c2log 10 = some ⟨10, []⟩ := by
      show selectTimestep [⟨0, [⟨"veh_1", 1, 2, 3⟩]⟩, ⟨10, []⟩] 10 = some ⟨10, []⟩
      simp [selectTimestep, hsorted, stepClosest]
    have hpos : get_vehicle_position_at_time c2log "veh_1" 10 = none := by
      simp [get_vehicle_position_at_time, hsel]
    unfold get_streetview_image_and_description
    rw [hpos]
  · rintro ⟨r1, r2, r3, r4, r5, r6, h⟩
    have h2 := congrArg (fun s : String => s.data.head?) h
    simp only [String.data_append] at h2
    simp at h2

theorem intercalate_six (a b c d e f : String) :
    String.intercalate "\n\n" [a, b, c, d, e, f] =
      a ++ "\n\n" ++ b ++ "\n\n" ++ c ++ "\n\n" ++ d ++ "\n\n" ++ e ++ "\n\n" ++ f := rfl

/-- C2 (amended): whenever the pose lookup succeeds, the orchestrator
returns six blank-line-separated sections in the fixed camera order,
each prefixed by its camera name; every viewpoint is processed (the
result is the join of one section per viewpoint), a viewpoint whose
image fetch or captioning raises gets the fixed placeholder as its
section body, and when every image fetch raises the result is exactly
the six fixed placeholder sections, with no exception reaching the
caller. -/
theorem C2_amended_six_sections (svc : Services) (conv : ℚ → ℚ → ℚ × ℚ) (rep : ReportFile)
    (log : TrajectoryLog) (vid : String) (t x y angle : ℚ)
    (hpos : get_vehicle_position_at_time log vid t = some (x, y, angle)) :
    sixSectionForm (get_streetview_image_and_description svc conv rep log vid t) ∧
    (get_streetview_image_and_description svc conv rep log vid t =
      String.intercalate "\n\n" (camera_angle_list.map (fun entry =>
        entry.1 ++ ": " ++ sectionRest svc (conv x y).2 (conv x y).1 angle
          (_load_environment_context rep).1 (_load_environment_context rep).2 entry))) ∧
    (∀ entry e,
      svc.getStreetViewImage (conv x y).2 (conv x y).1 (angle + entry.2) (fov_list entry.1) =
        Except.error e →
      sectionRest svc (conv x y).2 (conv x y).1 angle
        (_load_environment_context rep).1 (_load_environment_context rep).2 entry =
        "Failed to retrieve street view") ∧
    (∀ entry image_data e,
      svc.getStreetViewImage (conv x y).2 (conv x y).1 (angle + entry.2) (fov_list entry.1) =
        Except.ok image_data →
      svc.analyzeImage image_data (_load_environment_context rep).1
        (_load_environment_context rep).2 = Except.error e →
      sectionRest svc (conv x y).2 (conv x y).1 angle
        (_load_environment_context rep).1 (_load_environment_context rep).2 entry =
        "Failed to retrieve street view") ∧
    ((∀ lat lon heading fov, ∃ e,
        svc.getStreetViewImage lat lon heading fov = Except.error e) →
      get_streetview_image_and_description svc conv rep log vid t =
        "front: Failed to retrieve street view\n\nfront_left: Failed to retrieve street view\n\nfront_right: Failed to retrieve street view\n\nrear: Failed to retrieve street view\n\nrear_left: Failed to retrieve street view\n\nrear_right: Failed to retrieve street view") := by
  refine ⟨?_, ?_, ?_, ?_, ?_⟩
  · rw [orchestrator_of_pose svc conv rep log vid t x y angle hpos]
    refine ⟨sectionRest svc (conv x y).2 (conv x y).1 angle
        (_load_environment_context rep).1 (_load_environment_context rep).2 ("front", 0),
      sectionRest svc (conv x y).2 (conv x y).1 angle
        (_load_environment_context rep).1 (_load_environment_context rep).2 ("front_left", -66),
      sectionRest svc (conv x y).2 (conv x y).1 angle
        (_load_environment_context rep).1 (_load_environment_context rep).2 ("front_right", 66),
      sectionRest svc (conv x y).2 (conv x y).1 angle
        (_load_environment_context rep).1 (_load_environment_context rep).2 ("rear", 180),
      sectionRest svc (conv x y).2 (conv x y).1 angle
        (_load_environment_context rep).1 (_load_environment_context rep).2 ("rear_left", -152),
      sectionRest svc (conv x y).2 (conv x y).1 angle
        (_load_environment_context rep).1 (_load_environment_context rep).2 ("rear_right", 152),
      ?_⟩
    simp only [camera_angle_list, List.map_cons, List.map_nil, cameraSection_split]
    rw [intercalate_six]
    simp [← String.append_assoc]
  · rw [orchestrator_of_pose svc conv rep log vid t x y angle hpos]
    simp only [camera_angle_list, List.map_cons, List.map_nil, cameraSection_split]
  · intro entry e he
    exact sectionRest_fetch_error svc (conv x y).2 (conv x y).1 angle
      (_load_environment_context rep).1 (_load_environment_context rep).2 entry e he
  · intro entry image_data e hf ha
    rw [sectionRest_fetch_ok svc (conv x y).2 (conv x y).1 angle
      (_load_environment_context rep).1 (_load_environment_context rep).2 entry image_data hf]
    exact captionPart_error svc (_load_environment_context rep).1
      (_load_environment_context rep).2 (default_prompt_list entry.1) image_data e ha
  · intro hfail
    rw [orchestrator_of_pose svc conv rep log vid t x y angle hpos]
    have hcs := fun entry => cameraSection_fetch_fail svc (conv x y).2 (conv x y).1 angle
      (_load_environment_context rep).1 (_load_environment_context rep).2 entry hfail
    simp only [camera_angle_list, List.map_cons, List.map_nil, hcs]
    rw [intercalate_six]
    simp

/-- Witness for C2 (amended): with the always-failing service and a log
whose nearest timestep does hold the queried vehicle, the result is the
six placeholder sections. -/
theorem C2_amended_six_sections_witness :
    get_vehicle_position_at_time c3log "veh_1" 2 = some (10, 20, 90) ∧
    get_streetview_image_and_description failServices (fun a b => (a, b))
        .missing c3log "veh_1" 2 =
      "front: Failed to retrieve street view\n\nfront_left: Failed to retrieve street view\n\nfront_right: Failed to retrieve street view\n\nrear: Failed to retrieve street view\n\nrear_left: Failed to retrieve street view\n\nrear_right: Failed to retrieve street view" := by
  have hsel : selectTimestep c3log 2 = some ⟨2, [⟨"veh_1", 10, 20, 90⟩]⟩ := by
    simp [selectTimestep, sortTimesteps, c3log, stepClosest]
  have hpos : get_vehicle_position_at_time c3log "veh_1" 2 = some (10, 20, 90) := by
    simp [get_vehicle_position_at_time, hsel]
  exact ⟨hpos,
    (C2_amended_six_sections failServices (fun a b => (a, b)) .missing c3log "veh_1" 2
      10 20 90 hpos).2.2.2.2 (fun _ _ _ _ => ⟨"boom", rfl⟩)⟩

end StreetView
